import Mathlib

/-!
Shallow embedding of `src/app.py` (CONATOC Net community portal): the data
model, the authorization checks, the upload-staging/publish flow, and the
admin/identity operations, together with theorems settling the frozen claims
about the specification.

Modelling conventions, chosen to stay line-for-line close to the Python source:
* Roles, channels and visibility values are plain `String`s, exactly as in the
  SQLite columns and the Python comparisons.
* Timestamps (`now_local()` / `created_at`) are abstract `Nat` ticks; the
  `strftime` date rendering is kept as the raw tick.
* Uploaded file contents are `List Nat` byte sequences.  The base64 transport
  encoding between `cache_*_upload` and `publish_*` (`b64encode` then
  `b64decode`) is modelled as the identity on the byte sequence, so the staged
  store holds the decoded raw bytes directly.
* `werkzeug`'s salted password hashing is modelled as an injective tagging
  function; no claim depends on any cryptographic property of the hash.
* Python falsiness of optional form values (`if not title`) is modelled on
  `Option String` by `isBlank` (absent or empty string).
-/

/-- A row of the `user` table (`class User`). -/
structure User where
  id : Nat
  email : String
  name : String
  affiliation : Option String
  role : String
  password_hash : String
  created_at : Nat
  is_active : Bool
deriving DecidableEq, Repr

/-- A row of the `paper` table (`class Paper`). -/
structure Paper where
  id : Nat
  title : String
  link : Option String
  tags : Option String
  summary : Option String
  created_at : Nat
  uploaded_by : Nat
  file_name : Option String
  file_bytes : Option (List Nat)
deriving DecidableEq, Repr

/-- A row of the `dataset` table (`class Dataset`). -/
structure Dataset where
  id : Nat
  title : String
  description : Option String
  link : Option String
  tags : Option String
  visibility : String
  created_at : Nat
  uploaded_by : Nat
  file_name : Option String
  file_bytes : Option (List Nat)
deriving DecidableEq, Repr

/-- A row of the `news_post` table (`class NewsPost`). -/
structure NewsPost where
  id : Nat
  title : String
  body : String
  link : Option String
  created_at : Nat
  created_by : Nat
deriving DecidableEq, Repr

/-- A row of the `chat_message` table (`class ChatMessage`). -/
structure ChatMessage where
  id : Nat
  channel : String
  message : String
  created_at : Nat
  created_by : Nat
deriving DecidableEq, Repr

/-- The relational store backing the application. -/
structure AppState where
  users : List User
  papers : List Paper
  datasets : List Dataset
  news : List NewsPost
  chats : List ChatMessage
deriving DecidableEq, Repr

/-- The client-side upload store (`paper-upload-store` / `ds-upload-store`
`dcc.Store` contents, as written by `cache_paper_upload` / `cache_ds_upload`):
a `bytes_b64`/`filename` pair.  `bytes` holds the decoded raw bytes (the base64
transport is modelled as the identity). -/
structure Staged where
  bytes : List Nat
  filename : Option String
deriving DecidableEq, Repr

/-- Python `str.strip()` (whitespace at both ends), modelled over the
character list (Lean's `String.trim` is byte-position based and does not
reduce in the kernel). -/
def pyStrip (s : String) : String :=
  ⟨((s.data.dropWhile Char.isWhitespace).reverse.dropWhile
      Char.isWhitespace).reverse⟩

/-- Python `str.lower()` (ASCII case folding suffices for every claim),
modelled over the character list. -/
def pyLower (s : String) : String := ⟨s.data.map Char.toLower⟩

/-- Python `needle in haystack` substring membership, modelled over the
character lists. -/
def pySubstr (hay pat : String) : Bool := decide (pat.data <:+: hay.data)

/-- Python falsiness of an optional form value (`if not title`). -/
def isBlank (o : Option String) : Bool :=
  match o with
  | none => true
  | some s => s == ""

/-- The pattern `(x.strip() if x else None)` used throughout the source. -/
def stripOpt (o : Option String) : Option String :=
  match o with
  | none => none
  | some s => if s == "" then none else some (pyStrip s)

/-- Model of `werkzeug.security.generate_password_hash`: an injective tag.
No claim depends on cryptographic properties of the real hash. -/
def generate_password_hash (p : String) : String :=
  "pbkdf2-model$" ++ p

/-- Model of `werkzeug.security.check_password_hash`. -/
def check_password_hash (h p : String) : Bool :=
  h == generate_password_hash p

/-- Largest id present in a list of ids (SQLite assigns `max + 1` next). -/
def maxId (ids : List Nat) : Nat := ids.foldr max 0

/-- Next auto-increment id for the `paper` table. -/
def nextPaperId (s : AppState) : Nat := maxId (s.papers.map (·.id)) + 1

/-- Next auto-increment id for the `dataset` table. -/
def nextDatasetId (s : AppState) : Nat := maxId (s.datasets.map (·.id)) + 1

/-- Next auto-increment id for the `user` table. -/
def nextUserId (s : AppState) : Nat := maxId (s.users.map (·.id)) + 1

/-- Next auto-increment id for the `chat_message` table. -/
def nextChatId (s : AppState) : Nat := maxId (s.chats.map (·.id)) + 1

/-- Next auto-increment id for the `news_post` table. -/
def nextNewsId (s : AppState) : Nat := maxId (s.news.map (·.id)) + 1

/-- An `order_by(created_at.desc())` query result: newest first. -/
def sortNewest {α : Type} (created : α → Nat) (l : List α) : List α :=
  List.insertionSort (fun a b => created b ≤ created a) l

/-- `User.query.get(uid)` / the `users = {u.id: u for ...}` lookup maps. -/
def findUser (users : List User) (uid : Nat) : Option User :=
  users.find? (·.id == uid)

/-- The `bytes_b64`-truthiness guard shared by `publish_paper` and
`publish_dataset`: `if upload_store and upload_store.get("bytes_b64")`.
An empty byte sequence base64-encodes to the empty string, which is falsy. -/
def storedFile (store : Option Staged) : Option (List Nat × Option String) :=
  match store with
  | none => none
  | some st => if st.bytes == [] then none else some (st.bytes, st.filename)

/-- A row of the patients directory table rendered by `page_patients` /
`filter_patients` (`{"Name", "Email", "Affiliation", "Joined"}`). -/
structure PatientRow where
  nameField : String
  emailField : String
  affiliationField : String
  joined : Nat
deriving DecidableEq, Repr

/-- Serialize one patient `User` into a directory row. -/
def toPatientRow (u : User) : PatientRow :=
  { nameField := u.name
    emailField := u.email
    affiliationField := u.affiliation.getD ""
    joined := u.created_at }

/-- The query behind the patients directory:
`User.query.filter_by(role="patient").order_by(User.created_at.desc()).all()`,
serialized to rows. -/
def patientRows (s : AppState) : List PatientRow :=
  (sortNewest (·.created_at) (s.users.filter (·.role == "patient"))).map toPatientRow

/-- Outcome of rendering the `/patients` page, reduced to its data content. -/
inductive PatientsPage
  | loginRedirect
  | selfSummary
  | fullList (rows : List PatientRow)
deriving DecidableEq, Repr

/-- Model of `page_patients`: unauthenticated actors are sent to login; an
actor whose role is `"patient"` sees the self-summary card; every other
authenticated actor falls through to the full patient table. -/
def page_patients (cu : Option User) (s : AppState) : PatientsPage :=
  match cu with
  | none => .loginRedirect
  | some u =>
    if u.role == "patient" then .selfSummary
    else .fullList (patientRows s)

/-- Model of the `filter_patients` search callback: non-admin/researcher
actors receive `[]`; otherwise the patient rows, filtered by a lowercase
substring match over `Name + Email` when the query is nonempty. -/
def filter_patients (cu : Option User) (q : Option String) (s : AppState) :
    List PatientRow :=
  match cu with
  | none => []
  | some u =>
    if u.role != "admin" && u.role != "researcher" then []
    else
      let qn := pyLower (pyStrip (q.getD ""))
      let rows := patientRows s
      if qn == "" then rows
      else rows.filter (fun r =>
        pySubstr (pyLower (r.nameField ++ r.emailField)) qn)

/-- A row of the Data Hub table rendered by `page_data` / `publish_dataset`. -/
structure DsRow where
  idField : Nat
  titleField : String
  tagsField : String
  visibilityField : String
  uploadedBy : String
  dateField : Nat
  linkField : String
  fileField : String
deriving DecidableEq, Repr

/-- Serialize one `Dataset` into a Data Hub row (`"File"` is `"Yes"/"No"`,
`"Uploaded by"` is the uploader's name or an em-dash placeholder). -/
def dsRow (users : List User) (d : Dataset) : DsRow :=
  { idField := d.id
    titleField := d.title
    tagsField := d.tags.getD ""
    visibilityField := d.visibility
    uploadedBy := match findUser users d.uploaded_by with
      | some u => u.name
      | none => "-"
    dateField := d.created_at
    linkField := d.link.getD ""
    fileField := if d.file_bytes.isSome then "Yes" else "No" }

/-- The Data Hub listing:
`Dataset.query.order_by(Dataset.created_at.desc()).all()`, serialized. -/
def dsRows (s : AppState) : List DsRow :=
  (sortNewest (·.created_at) s.datasets).map (dsRow s.users)

/-- Model of `page_data`: `none` is the `auth_guard` login prompt, otherwise
the full dataset table (note: no visibility filtering on the listing). -/
def page_data (cu : Option User) (s : AppState) : Option (List DsRow) :=
  match cu with
  | none => none
  | some _ => some (dsRows s)

/-- A row of the papers table rendered by `page_papers` / `publish_paper`. -/
structure PaperRow where
  idField : Nat
  titleField : String
  tagsField : String
  uploadedBy : String
  dateField : Nat
  linkField : String
  pdfField : String
deriving DecidableEq, Repr

/-- Serialize one `Paper` into a papers-table row. -/
def paperRow (users : List User) (p : Paper) : PaperRow :=
  { idField := p.id
    titleField := p.title
    tagsField := p.tags.getD ""
    uploadedBy := match findUser users p.uploaded_by with
      | some u => u.name
      | none => "-"
    dateField := p.created_at
    linkField := p.link.getD ""
    pdfField := if p.file_bytes.isSome then "Yes" else "No" }

/-- The papers listing:
`Paper.query.order_by(Paper.created_at.desc()).all()`, serialized. -/
def paperRows (s : AppState) : List PaperRow :=
  (sortNewest (·.created_at) s.papers).map (paperRow s.users)

/-- Outcome of a publish callback: an alert with `no_update` on the table, or
the refreshed table rows on success. -/
inductive Publish (ρ : Type)
  | err (msg : String)
  | ok (rows : List ρ)
deriving DecidableEq, Repr

/-- Model of `cache_paper_upload` / `cache_ds_upload`: decode the selected
file into the client-side store (replacing any previous selection); clearing
the upload widget clears the store.  The returned string is the
`Selected: ...` meta line (the size/MB rendering is dropped: floating-point
presentation only). -/
def cache_paper_upload (contents : Option (List Nat)) (filename : Option String) :
    Option Staged × String :=
  match contents with
  | none => (none, "")
  | some raw => (some { bytes := raw, filename := filename },
      "Selected: " ++ filename.getD "None")

/-- Model of the `publish_paper` callback.  Checks authentication and the
required title, copies any staged file bytes/name out of the client store
(which it does not modify: the callback has no Output targeting
`paper-upload-store`), inserts the record and returns the refreshed listing. -/
def publish_paper (cu : Option User) (title link tags summary : Option String)
    (upload_store : Option Staged) (now : Nat) (s : AppState) :
    AppState × Publish PaperRow :=
  match cu with
  | none => (s, .err "Please log in.")
  | some u =>
    if isBlank title then (s, .err "Title is required.")
    else
      let fb := storedFile upload_store
      let p : Paper :=
        { id := nextPaperId s
          title := pyStrip (title.getD "")
          link := stripOpt link
          tags := stripOpt tags
          summary := stripOpt summary
          created_at := now
          uploaded_by := u.id
          file_name := match fb with
            | some (_, fn) => fn
            | none => none
          file_bytes := fb.map (·.1) }
      let s' := { s with papers := s.papers ++ [p] }
      (s', .ok (paperRows s'))

/-- The visibility normalization
`vis = vis if vis in ("members","researchers") else "members"`. -/
def normVis (vis0 : Option String) : String :=
  match vis0 with
  | some v => if v == "members" || v == "researchers" then v else "members"
  | none => "members"

/-- Model of the `publish_dataset` callback: authentication, required title,
visibility normalization (`vis if vis in ("members","researchers") else
"members"`), the researcher-only authorization gate, then the insert and the
refreshed listing.  Like `publish_paper` it does not modify the client upload
store. -/
def publish_dataset (cu : Option User) (title desc link tags vis0 : Option String)
    (upload_store : Option Staged) (now : Nat) (s : AppState) :
    AppState × Publish DsRow :=
  match cu with
  | none => (s, .err "Please log in.")
  | some u =>
    if isBlank title then (s, .err "Title is required.")
    else
      let vis := normVis vis0
      if vis == "researchers" && u.role != "admin" && u.role != "researcher" then
        (s, .err "Only researchers/admin can post researcher-only items.")
      else
        let fb := storedFile upload_store
        let d : Dataset :=
          { id := nextDatasetId s
            title := pyStrip (title.getD "")
            description := stripOpt desc
            link := stripOpt link
            tags := stripOpt tags
            visibility := vis
            created_at := now
            uploaded_by := u.id
            file_name := match fb with
              | some (_, fn) => fn
              | none => none
            file_bytes := fb.map (·.1) }
        let s' := { s with datasets := s.datasets ++ [d] }
        (s', .ok (dsRows s'))

/-- Outcome of `publish_news`. -/
inductive NewsResult
  | err (msg : String)
  | posted
deriving DecidableEq, Repr

/-- Model of the `publish_news` callback. -/
def publish_news (cu : Option User) (title link body : Option String)
    (now : Nat) (s : AppState) : AppState × NewsResult :=
  match cu with
  | none => (s, .err "Please log in.")
  | some u =>
    if isBlank title || isBlank body then
      (s, .err "Title and message are required.")
    else
      let post : NewsPost :=
        { id := nextNewsId s
          title := pyStrip (title.getD "")
          body := pyStrip (body.getD "")
          link := stripOpt link
          created_at := now
          created_by := u.id }
      ({ s with news := s.news ++ [post] }, .posted)

/-- Outcome of a `/download/...` route. -/
inductive DownloadResult
  | redirectLogin
  | notFound
  | forbidden
  | bytesOut (bytes : List Nat) (fname : String)
deriving DecidableEq, Repr

/-- Model of the `/download/paper/<id>` route: login redirect, 404 when the
paper is absent or holds no (nonempty) bytes, else the attachment. -/
def download_paper (cu : Option User) (pid : Nat) (s : AppState) :
    DownloadResult :=
  match cu with
  | none => .redirectLogin
  | some _ =>
    match s.papers.find? (·.id == pid) with
    | none => .notFound
    | some p =>
      match p.file_bytes with
      | none => .notFound
      | some b =>
        if b == [] then .notFound
        else
          .bytesOut b (match p.file_name with
            | some n => if n == "" then "paper_file.pdf" else n
            | none => "paper_file.pdf")

/-- Model of the `/download/dataset/<id>` route: login redirect, 404 when the
dataset is absent or holds no (nonempty) bytes, 403 when
`visibility == "researchers"` and the actor is not admin/researcher, else the
attachment with the exact stored bytes. -/
def download_dataset (cu : Option User) (did : Nat) (s : AppState) :
    DownloadResult :=
  match cu with
  | none => .redirectLogin
  | some u =>
    match s.datasets.find? (·.id == did) with
    | none => .notFound
    | some d =>
      match d.file_bytes with
      | none => .notFound
      | some b =>
        if b == [] then .notFound
        else if d.visibility == "researchers"
            && u.role != "admin" && u.role != "researcher" then .forbidden
        else
          .bytesOut b (match d.file_name with
            | some n => if n == "" then "dataset_file.bin" else n
            | none => "dataset_file.bin")

/-- Model of `can_access_channel`, a pure function of the current actor's role
string and the channel string (with the source's `return False` fallback for
unknown channels). -/
def can_access_channel (role ch : String) : Bool :=
  if ch == "general" then true
  else if ch == "research" then
    role == "admin" || role == "researcher" || role == "doctor"
  else if ch == "patients" then
    role == "admin" || role == "patient"
  else false

/-- The channel feed query behind `refresh_chat`:
`filter_by(channel=...)`, newest first, `limit(60)`, then reversed for
display. -/
def chatChannelMsgs (channel : String) (s : AppState) : List ChatMessage :=
  ((sortNewest (·.created_at) (s.chats.filter (·.channel == channel))).take 60).reverse

/-- Outcome of the `refresh_chat` polling callback, reduced to its data
content: empty output for guests, a restricted-channel alert, or the feed. -/
inductive ChatFeed
  | guestBlank
  | restricted
  | feed (msgs : List ChatMessage)
deriving DecidableEq, Repr

/-- Model of `refresh_chat`: guests get empty output; a channel the actor may
not access yields the restricted alert; otherwise the channel feed. -/
def refresh_chat (cu : Option User) (channel : String) (s : AppState) :
    ChatFeed :=
  match cu with
  | none => .guestBlank
  | some u =>
    if !can_access_channel u.role channel then .restricted
    else .feed (chatChannelMsgs channel s)

/-- Outcome of the `send_chat` callback. -/
inductive ChatSend
  | needLogin
  | restricted
  | emptyText
  | sent
deriving DecidableEq, Repr

/-- Model of `send_chat`: authentication, channel authorization, nonblank
text, then the message insert. -/
def send_chat (cu : Option User) (channel : String) (text : Option String)
    (now : Nat) (s : AppState) : AppState × ChatSend :=
  match cu with
  | none => (s, .needLogin)
  | some u =>
    if !can_access_channel u.role channel then (s, .restricted)
    else if pyStrip (text.getD "") == "" then (s, .emptyText)
    else
      let m : ChatMessage :=
        { id := nextChatId s
          channel := channel
          message := pyStrip (text.getD "")
          created_at := now
          created_by := u.id }
      ({ s with chats := s.chats ++ [m] }, .sent)

/-- The registration role coercion
`role if role in ("patient","researcher") else "patient"`. -/
def coerceRegRole (role : Option String) : String :=
  match role with
  | some r => if r == "patient" || r == "researcher" then r else "patient"
  | none => "patient"

/-- Outcome of the `do_register` callback. -/
inductive RegisterResult
  | needConsent
  | missingFields
  | invalidEmail
  | weakPassword
  | duplicateEmail
  | created (u : User)
deriving DecidableEq, Repr

/-- Model of `do_register`: consent, required fields, email normalization and
`"@"` check, minimum password length 8, duplicate-email check, then the insert
with the role coercion `role if role in ("patient","researcher") else
"patient"` and `is_active = True` (the created user is auto-logged-in). -/
def do_register (name affil email password role : Option String)
    (consent : Bool) (now : Nat) (s : AppState) : AppState × RegisterResult :=
  if !consent then (s, .needConsent)
  else if isBlank name || isBlank email || isBlank password then
    (s, .missingFields)
  else
    let e := pyLower (pyStrip (email.getD ""))
    if !(e.data.contains '@') then (s, .invalidEmail)
    else if (password.getD "").length < 8 then (s, .weakPassword)
    else if (s.users.find? (·.email == e)).isSome then (s, .duplicateEmail)
    else
      let u : User :=
        { id := nextUserId s
          email := e
          name := pyStrip (name.getD "")
          affiliation := stripOpt affil
          role := coerceRegRole role
          password_hash := generate_password_hash (password.getD "")
          created_at := now
          is_active := true }
      ({ s with users := s.users ++ [u] }, .created u)

/-- Outcome of the `do_login` callback. -/
inductive LoginResult
  | missingFields
  | invalidCredentials
  | deactivated
  | loggedIn (u : User)
deriving DecidableEq, Repr

/-- Model of `do_login`: required fields, lookup by normalized email, password
check, then the `is_active` gate (the only place the flag is consulted). -/
def do_login (email password : Option String) (s : AppState) : LoginResult :=
  if isBlank email || isBlank password then .missingFields
  else
    match s.users.find? (·.email == pyLower (pyStrip (email.getD ""))) with
    | none => .invalidCredentials
    | some u =>
      if !check_password_hash u.password_hash (password.getD "") then
        .invalidCredentials
      else if !u.is_active then .deactivated
      else .loggedIn u

/-- A row of the admin console users table. -/
structure AdminRow where
  idField : Nat
  nameField : String
  emailField : String
  roleField : String
  affiliationField : String
  activeField : String
  joined : Nat
deriving DecidableEq, Repr

/-- Serialize one `User` into an admin console row. -/
def adminRow (u : User) : AdminRow :=
  { idField := u.id
    nameField := u.name
    emailField := u.email
    roleField := u.role
    affiliationField := u.affiliation.getD ""
    activeField := if u.is_active then "Yes" else "No"
    joined := u.created_at }

/-- The admin console listing:
`User.query.order_by(User.created_at.desc()).all()`, serialized. -/
def adminRows (s : AppState) : List AdminRow :=
  (sortNewest (·.created_at) s.users).map adminRow

/-- `u.role = new_role` applied inside the store. -/
def setUserRole (users : List User) (uid : Nat) (r : String) : List User :=
  users.map (fun u => if u.id == uid then { u with role := r } else u)

/-- `u.is_active = False` applied inside the store. -/
def deactivateUserRow (users : List User) (uid : Nat) : List User :=
  users.map (fun u => if u.id == uid then { u with is_active := false } else u)

/-- Outcome of the `admin_actions` callback. -/
inductive AdminResult
  | notAuthorized
  | selectFirst
  | userNotFound
  | invalidRole
  | roleSet (email newRole : String) (rows : List AdminRow)
  | selfDeactivation
  | deactivated (email : String) (rows : List AdminRow)
deriving DecidableEq, Repr

/-- Model of the `admin_actions` callback.  `trigSetRole` distinguishes which
button fired (`btn-admin-setrole` vs `btn-admin-deactivate`); `sel` is the id
taken from the selected table row, or `none` when no row is selected.  Checks
run in source order: admin gate, selection, target lookup, then per-action
validation (role validity for set-role, self-deactivation guard for
deactivate). -/
def admin_actions (cu : Option User) (trigSetRole : Bool) (sel : Option Nat)
    (new_role : String) (s : AppState) : AppState × AdminResult :=
  match cu with
  | none => (s, .notAuthorized)
  | some u =>
    if u.role != "admin" then (s, .notAuthorized)
    else
      match sel with
      | none => (s, .selectFirst)
      | some uid =>
        match findUser s.users uid with
        | none => (s, .userNotFound)
        | some target =>
          if trigSetRole then
            if new_role != "admin" && new_role != "researcher"
                && new_role != "patient" then (s, .invalidRole)
            else
              let s' := { s with users := setUserRole s.users uid new_role }
              (s', .roleSet target.email new_role (adminRows s'))
          else
            if target.id == u.id then (s, .selfDeactivation)
            else
              let s' := { s with users := deactivateUserRow s.users uid }
              (s', .deactivated target.email (adminRows s'))

/-- Modelled from the spec: the §4.2 channel-access table restricted to the
authenticated roles (`general`: all four roles; `research`: admin, researcher,
doctor; `patients`: admin, patient).  This is the spec-side definition used to
compare `can_access_channel` against the table. -/
def channelTableSpec (role ch : String) : Bool :=
  if ch == "general" then
    role == "admin" || role == "researcher" || role == "doctor" || role == "patient"
  else if ch == "research" then
    role == "admin" || role == "researcher" || role == "doctor"
  else if ch == "patients" then
    role == "admin" || role == "patient"
  else false

/-- Sorting a listing newest-first does not change its members. -/
theorem mem_sortNewest {α : Type} (f : α → Nat) (l : List α) (a : α) :
    a ∈ sortNewest f l ↔ a ∈ l :=
  (List.perm_insertionSort _ l).mem_iff

/-- Every id occurring in a list is bounded by `maxId`. -/
theorem le_maxId (ids : List Nat) (x : Nat) (hx : x ∈ ids) : x ≤ maxId ids := by
  induction ids with
  | nil => cases hx
  | cons y ys ih =>
    rcases List.mem_cons.mp hx with rfl | h
    · exact le_max_left _ _
    · exact le_trans (ih h) (le_max_right _ _)

/-- Finding a freshly appended element: if the predicate rejects everything
already in the list and accepts the new element, `find?` returns it. -/
theorem find?_app_fresh {α : Type} (p : α → Bool) (l : List α) (x : α)
    (hl : ∀ y ∈ l, p y = false) (hx : p x = true) :
    (l ++ [x]).find? p = some x := by
  rw [List.find?_append]
  have hnone : l.find? p = none :=
    List.find?_eq_none.mpr (by intro y hy; simp [hl y hy])
  simp [hnone, List.find?, hx]

/-- Concrete fixture: the bootstrap administrator. -/
def adminU : User :=
  { id := 1, email := "admin@conatoc.net", name := "Marica Bakovic (Admin)"
    affiliation := some "University of Guelph", role := "admin"
    password_hash := generate_password_hash "ChangeMeNow!"
    created_at := 0, is_active := true }

/-- Concrete fixture: a researcher account. -/
def resU : User :=
  { id := 2, email := "res@x.org", name := "Rae Searcher"
    affiliation := none, role := "researcher"
    password_hash := generate_password_hash "password-r"
    created_at := 1, is_active := true }

/-- Concrete fixture: a doctor account. -/
def docU : User :=
  { id := 3, email := "doc@x.org", name := "Dee Octor"
    affiliation := none, role := "doctor"
    password_hash := generate_password_hash "password-d"
    created_at := 2, is_active := true }

/-- Concrete fixture: a patient account. -/
def patU : User :=
  { id := 4, email := "pat@x.org", name := "Pat Ient"
    affiliation := none, role := "patient"
    password_hash := generate_password_hash "password-p"
    created_at := 3, is_active := true }

/-- Concrete fixture: a store with one user of each role and empty content. -/
def baseState : AppState :=
  { users := [adminU, resU, docU, patU]
    papers := [], datasets := [], news := [], chats := [] }

/-- C1: for every authenticated actor requesting the patient directory, admin
and researcher receive the full patient list and a patient receives only the
self-summary — but, contrary to the claim (and to the source's own comment
"Patients page is restricted to researchers/admin for viewing list" and its
`filter_patients` guard), a doctor is NOT denied: `page_patients` falls
through to the full list for every non-patient role, so a doctor is served
the full patient list even though the search callback returns the doctor an
empty list. -/
theorem c1_patient_directory (s : AppState) (u : User) :
    (u.role = "admin" → page_patients (some u) s = .fullList (patientRows s)) ∧
    (u.role = "researcher" → page_patients (some u) s = .fullList (patientRows s)) ∧
    (u.role = "patient" → page_patients (some u) s = .selfSummary) ∧
    (u.role = "doctor" → page_patients (some u) s = .fullList (patientRows s)) ∧
    (u.role = "doctor" → filter_patients (some u) none s = []) := by
  refine ⟨?_, ?_, ?_, ?_, ?_⟩ <;> intro h <;>
    simp [page_patients, filter_patients, h]

/-- Witness for `c1_patient_directory`: the concrete doctor account is served
the full patient list. -/
theorem c1_patient_directory_witness :
    page_patients (some docU) baseState = .fullList (patientRows baseState) :=
  (c1_patient_directory baseState docU).2.2.2.1 rfl

/-- C4: `can_access_channel` agrees with the §4.2 table on every
(role, channel) pair drawn from the four roles and three channels, and both
the feed read (`refresh_chat`) and the post (`send_chat`) are gated exactly
by it: a role the table denies can neither read nor post, and a role it
allows reads the feed and can post a nonblank message. -/
theorem c4_channel_access (u : User) (c : String) (s : AppState)
    (text : Option String) (n : Nat)
    (hr : u.role = "admin" ∨ u.role = "researcher" ∨ u.role = "doctor" ∨
      u.role = "patient")
    (hc : c = "general" ∨ c = "research" ∨ c = "patients") :
    can_access_channel u.role c = channelTableSpec u.role c ∧
    (channelTableSpec u.role c = false →
      refresh_chat (some u) c s = .restricted ∧
      send_chat (some u) c text n s = (s, .restricted)) ∧
    (channelTableSpec u.role c = true →
      refresh_chat (some u) c s = .feed (chatChannelMsgs c s) ∧
      (pyStrip (text.getD "") ≠ "" → (send_chat (some u) c text n s).2 = .sent)) := by
  rcases hr with h | h | h | h <;> rcases hc with rfl | rfl | rfl <;>
    simp [can_access_channel, channelTableSpec, refresh_chat, send_chat, h] <;>
    intro ht <;> simp [ht]

/-- Witness for `c4_channel_access`: a concrete patient on the `research`
channel (denied: can neither read nor post) with a concrete message. -/
theorem c4_channel_access_witness :
    can_access_channel patU.role "research" = channelTableSpec patU.role "research" ∧
    (channelTableSpec patU.role "research" = false →
      refresh_chat (some patU) "research" baseState = .restricted ∧
      send_chat (some patU) "research" (some "hi") 5 baseState
        = (baseState, .restricted)) ∧
    (channelTableSpec patU.role "research" = true →
      refresh_chat (some patU) "research" baseState
        = .feed (chatChannelMsgs "research" baseState) ∧
      (pyStrip ((some "hi" : Option String).getD "") ≠ "" →
        (send_chat (some patU) "research" (some "hi") 5 baseState).2 = .sent)) :=
  c4_channel_access patU "research" baseState (some "hi") 5
    (by decide) (by decide)

/-- Concrete fixture: a researcher-only dataset with stored file bytes. -/
def secretDs : Dataset :=
  { id := 1, title := "Lipidomics raw", description := none, link := none
    tags := some "lipidomics", visibility := "researchers", created_at := 5
    uploaded_by := 2, file_name := some "lipidomics.bin"
    file_bytes := some [7, 8, 9] }

/-- Concrete fixture: the base store extended with the researcher-only
dataset. -/
def c2State : AppState := { baseState with datasets := [secretDs] }

/-- C2 counterexample: a dataset with `visibility = researchers` DOES appear
in the dataset listing returned to a doctor actor — `page_data` serves the
whole dataset table to every authenticated member, so the claim that such a
dataset "does not appear in the dataset listing" for a doctor or patient is
false at this concrete input. -/
theorem c2_visibility_listing_counterexample :
    docU.role = "doctor" ∧ secretDs.visibility = "researchers" ∧
    page_data (some docU) c2State = some [dsRow c2State.users secretDs] := by
  refine ⟨rfl, rfl, ?_⟩
  rfl

/-- C2 amended: the visibility flag restricts download exposure only, not the
listing: the dataset listing returned by `page_data` to any authenticated
actor contains every dataset — researcher-only ones included — independently
of the actor's role; only the download of a researcher-only dataset is denied
to a doctor or patient actor. -/
theorem c2_visibility_restricts_download_only (u v : User) (s : AppState)
    (d : Dataset) (hd : d ∈ s.datasets) (b : List Nat)
    (hb : d.file_bytes = some b) (hbne : b ≠ [])
    (hvis : d.visibility = "researchers")
    (hfind : s.datasets.find? (·.id == d.id) = some d)
    (hrole : u.role = "doctor" ∨ u.role = "patient") :
    page_data (some u) s = some (dsRows s) ∧
    page_data (some v) s = some (dsRows s) ∧
    dsRow s.users d ∈ dsRows s ∧
    download_dataset (some u) d.id s = .forbidden := by
  refine ⟨rfl, rfl, ?_, ?_⟩
  · exact List.mem_map_of_mem _ ((mem_sortNewest _ _ _).mpr hd)
  · have hbne' : (b == []) = false := by
      cases b with
      | nil => exact absurd rfl hbne
      | cons x xs => rfl
    rcases hrole with h | h <;>
      simp [download_dataset, hfind, hb, hbne', hvis, h]

/-- Witness for `c2_visibility_restricts_download_only`: the concrete doctor
account sees the researcher-only dataset in the listing yet cannot download
it. -/
theorem c2_visibility_restricts_download_only_witness :
    page_data (some docU) c2State = some (dsRows c2State) ∧
    page_data (some adminU) c2State = some (dsRows c2State) ∧
    dsRow c2State.users secretDs ∈ dsRows c2State ∧
    download_dataset (some docU) secretDs.id c2State = .forbidden :=
  c2_visibility_restricts_download_only docU adminU c2State secretDs
    (by decide) [7, 8, 9] (by decide) (by decide) (by decide) (by decide)
    (Or.inl (by decide))

/-- Concrete fixture: a staged paper upload that is never re-staged. -/
def c3Store : Option Staged :=
  some { bytes := [1, 2, 3], filename := some "a.pdf" }

/-- Concrete fixture: the store after a first publish that attached the
staged file. -/
def c3S1 : AppState :=
  (publish_paper (some resU) (some "First") none none none c3Store 10 baseState).1

/-- Concrete fixture: the store after a second publish performed afterwards
without staging a new file. -/
def c3S2 : AppState :=
  (publish_paper (some resU) (some "Second") none none none c3Store 11 c3S1).1

/-- C3 counterexample: the staging handle is NOT consumed by a successful
publish — a second publish performed afterwards without staging a new file
attaches the same staged bytes again (both persisted papers carry the staged
byte sequence `[1, 2, 3]`), so the claim that the second publish "attaches no
file bytes" is false at this concrete input. -/
theorem c3_staging_counterexample :
    c3S2.papers.map (fun p => (p.title, p.file_bytes))
      = [("First", some [1, 2, 3]), ("Second", some [1, 2, 3])] := by
  rfl

/-- C3 amended: a successful publish does not consume the client-side staging
store (the publish callbacks have no output targeting it): a second publish
performed afterwards without staging a new file attaches the same staged
bytes again, for papers and for datasets alike; the store changes only when a
new file selection replaces it. -/
theorem c3_staging_not_consumed (cu : User) (t1 t2 : String)
    (ht1 : t1 ≠ "") (ht2 : t2 ≠ "") (store : Option Staged) (b : List Nat)
    (fn : Option String) (hst : storedFile store = some (b, fn))
    (l1 g1 m1 l2 g2 m2 d1 d2 : Option String) (n1 n2 : Nat) (s : AppState) :
    ((publish_paper (some cu) (some t1) l1 g1 m1 store n1 s).1.papers.map
        (·.file_bytes))
      = s.papers.map (·.file_bytes) ++ [some b] ∧
    ((publish_paper (some cu) (some t2) l2 g2 m2 store n2
        (publish_paper (some cu) (some t1) l1 g1 m1 store n1 s).1).1.papers.map
        (·.file_bytes))
      = s.papers.map (·.file_bytes) ++ [some b, some b] ∧
    ((publish_dataset (some cu) (some t1) d1 l1 g1 (some "members") store n1
        s).1.datasets.map (·.file_bytes))
      = s.datasets.map (·.file_bytes) ++ [some b] ∧
    ((publish_dataset (some cu) (some t2) d2 l2 g2 (some "members") store n2
        (publish_dataset (some cu) (some t1) d1 l1 g1 (some "members") store n1
          s).1).1.datasets.map (·.file_bytes))
      = s.datasets.map (·.file_bytes) ++ [some b, some b] := by
  refine ⟨?_, ?_, ?_, ?_⟩ <;>
    simp [publish_paper, publish_dataset, normVis, isBlank, ht1, ht2, hst]

/-- Witness for `c3_staging_not_consumed`: the concrete double-publish trace
attaches the staged bytes to both records. -/
theorem c3_staging_not_consumed_witness :
    ((publish_paper (some resU) (some "First") none none none c3Store 10
        baseState).1.papers.map (·.file_bytes))
      = baseState.papers.map (·.file_bytes) ++ [some [1, 2, 3]] ∧
    ((publish_paper (some resU) (some "Second") none none none c3Store 11
        (publish_paper (some resU) (some "First") none none none c3Store 10
          baseState).1).1.papers.map (·.file_bytes))
      = baseState.papers.map (·.file_bytes) ++ [some [1, 2, 3], some [1, 2, 3]] ∧
    ((publish_dataset (some resU) (some "First") none none none
        (some "members") c3Store 10 baseState).1.datasets.map (·.file_bytes))
      = baseState.datasets.map (·.file_bytes) ++ [some [1, 2, 3]] ∧
    ((publish_dataset (some resU) (some "Second") none none none
        (some "members") c3Store 11
        (publish_dataset (some resU) (some "First") none none none
          (some "members") c3Store 10 baseState).1).1.datasets.map
        (·.file_bytes))
      = baseState.datasets.map (·.file_bytes)
          ++ [some [1, 2, 3], some [1, 2, 3]] :=
  c3_staging_not_consumed resU "First" "Second" (by decide) (by decide)
    c3Store [1, 2, 3] (some "a.pdf") (by decide) none none none none none none
    none none 10 11 baseState

/-- C5: publishing a dataset with `visibility = researchers` and a valid
title fails with the unauthorized alert and creates no record when the actor
is a patient or doctor, and succeeds — appending exactly one new
researcher-only record credited to the actor — when the actor is an admin or
researcher. -/
theorem c5_researcher_only_publish (u : User) (t : String) (ht : t ≠ "")
    (desc link tags : Option String) (store : Option Staged) (n : Nat)
    (s : AppState) :
    ((u.role = "patient" ∨ u.role = "doctor") →
      publish_dataset (some u) (some t) desc link tags (some "researchers")
          store n s
        = (s, .err "Only researchers/admin can post researcher-only items.")) ∧
    ((u.role = "admin" ∨ u.role = "researcher") →
      ∃ d rows,
        publish_dataset (some u) (some t) desc link tags (some "researchers")
            store n s
          = ({ s with datasets := s.datasets ++ [d] }, .ok rows) ∧
        d.visibility = "researchers" ∧ d.title = pyStrip t ∧
        d.uploaded_by = u.id ∧ d.created_at = n) := by
  constructor
  · intro h
    rcases h with h | h <;>
      simp [publish_dataset, normVis, isBlank, ht, h]
  · intro h
    refine ⟨{ id := nextDatasetId s, title := pyStrip t
              description := stripOpt desc, link := stripOpt link
              tags := stripOpt tags, visibility := "researchers"
              created_at := n, uploaded_by := u.id
              file_name := match storedFile store with
                | some (_, fn) => fn
                | none => none
              file_bytes := (storedFile store).map (·.1) },
            dsRows { s with datasets := s.datasets ++
              [{ id := nextDatasetId s, title := pyStrip t
                 description := stripOpt desc, link := stripOpt link
                 tags := stripOpt tags, visibility := "researchers"
                 created_at := n, uploaded_by := u.id
                 file_name := match storedFile store with
                   | some (_, fn) => fn
                   | none => none
                 file_bytes := (storedFile store).map (·.1) }] },
            ?_, rfl, rfl, rfl, rfl⟩
    rcases h with h | h <;>
      simp [publish_dataset, normVis, isBlank, ht, h]

/-- Witness for `c5_researcher_only_publish`: a concrete patient actor is
refused and a concrete admin actor succeeds (the success side consumed via
the existential). -/
theorem c5_researcher_only_publish_witness :
    publish_dataset (some patU) (some "Panel") none none none
        (some "researchers") none 7 baseState
      = (baseState, .err "Only researchers/admin can post researcher-only items.") ∧
    (∃ d rows,
      publish_dataset (some adminU) (some "Panel") none none none
          (some "researchers") none 7 baseState
        = ({ baseState with datasets := baseState.datasets ++ [d] }, .ok rows) ∧
      d.visibility = "researchers" ∧ d.title = pyStrip "Panel" ∧
      d.uploaded_by = adminU.id ∧ d.created_at = 7) :=
  ⟨(c5_researcher_only_publish patU "Panel" (by decide) none none none none 7
      baseState).1 (Or.inl (by decide)),
   (c5_researcher_only_publish adminU "Panel" (by decide) none none none none 7
      baseState).2 (Or.inl (by decide))⟩

/-- C6: after an admin or researcher publishes a dataset with
`visibility = researchers` and staged file bytes `b`, downloading the new
record as a doctor fails with 403 Forbidden, while downloading it as an admin
succeeds and returns exactly the staged byte sequence `b` (round-trip
byte-equality). -/
theorem c6_download_roundtrip (pub dl dl' : User) (t : String) (ht : t ≠ "")
    (hpub : pub.role = "admin" ∨ pub.role = "researcher")
    (desc link tags : Option String) (store : Option Staged)
    (b : List Nat) (fn : Option String) (hb : b ≠ [])
    (hst : storedFile store = some (b, fn)) (n : Nat) (s : AppState) :
    (dl.role = "doctor" →
      download_dataset (some dl) (nextDatasetId s)
          (publish_dataset (some pub) (some t) desc link tags
            (some "researchers") store n s).1
        = .forbidden) ∧
    (dl'.role = "admin" →
      ∃ fname,
        download_dataset (some dl') (nextDatasetId s)
            (publish_dataset (some pub) (some t) desc link tags
              (some "researchers") store n s).1
          = .bytesOut b fname) := by
  have hfresh : ∀ y ∈ s.datasets, (y.id == nextDatasetId s) = false := by
    intro y hy
    have hle : y.id ≤ maxId (s.datasets.map (·.id)) :=
      le_maxId _ _ (List.mem_map_of_mem _ hy)
    have : y.id ≠ nextDatasetId s := by
      unfold nextDatasetId
      omega
    simpa using this
  have hbne : (b == []) = false := by
    cases b with
    | nil => exact absurd rfl hb
    | cons x xs => rfl
  have hpub' :
      (publish_dataset (some pub) (some t) desc link tags (some "researchers")
        store n s).1.datasets
      = s.datasets ++
        [{ id := nextDatasetId s, title := pyStrip t, description := stripOpt desc
           link := stripOpt link, tags := stripOpt tags
           visibility := "researchers", created_at := n, uploaded_by := pub.id
           file_name := fn, file_bytes := some b }] := by
    rcases hpub with h | h <;>
      simp [publish_dataset, normVis, isBlank, ht, h, hst]
  have hfind :
      ((publish_dataset (some pub) (some t) desc link tags (some "researchers")
          store n s).1.datasets).find? (·.id == nextDatasetId s)
      = some { id := nextDatasetId s, title := pyStrip t
               description := stripOpt desc, link := stripOpt link
               tags := stripOpt tags, visibility := "researchers"
               created_at := n, uploaded_by := pub.id, file_name := fn
               file_bytes := some b } := by
    rw [hpub']
    exact find?_app_fresh _ _ _ hfresh (by simp)
  constructor
  · intro h
    simp [download_dataset, hfind, hbne, h]
  · intro h
    refine ⟨(match fn with
      | some m => if m == "" then "dataset_file.bin" else m
      | none => "dataset_file.bin"), ?_⟩
    simp [download_dataset, hfind, hbne, h]

/-- Witness for `c6_download_roundtrip`: a concrete researcher publishes
with staged bytes `[1, 2, 3]`; the concrete doctor is refused and the
concrete admin gets back exactly those bytes. -/
theorem c6_download_roundtrip_witness :
    download_dataset (some docU) (nextDatasetId baseState)
        (publish_dataset (some resU) (some "Raw") none none none
          (some "researchers") c3Store 8 baseState).1
      = .forbidden ∧
    (∃ fname,
      download_dataset (some adminU) (nextDatasetId baseState)
          (publish_dataset (some resU) (some "Raw") none none none
            (some "researchers") c3Store 8 baseState).1
        = .bytesOut [1, 2, 3] fname) :=
  ⟨(c6_download_roundtrip resU docU adminU "Raw" (by decide)
      (Or.inr (by decide)) none none none c3Store [1, 2, 3] (some "a.pdf")
      (by decide) (by decide) 8 baseState).1 (by decide),
   (c6_download_roundtrip resU docU adminU "Raw" (by decide)
      (Or.inr (by decide)) none none none c3Store [1, 2, 3] (some "a.pdf")
      (by decide) (by decide) 8 baseState).2 (by decide)⟩

/-- C7: for every successful self-registration, the stored role equals the
requested role when it is `patient` or `researcher` and silently coerces to
`patient` for any other requested value (including `doctor` and `admin`), so
a self-registered user can never hold role `doctor` or `admin`. -/
theorem c7_registration_role (name affil email password role : Option String)
    (consent : Bool) (now : Nat) (s : AppState) (u : User)
    (h : (do_register name affil email password role consent now s).2
      = .created u) :
    (role = some "patient" → u.role = "patient") ∧
    (role = some "researcher" → u.role = "researcher") ∧
    (∀ r, role = some r → r ≠ "patient" → r ≠ "researcher" →
      u.role = "patient") ∧
    (role = none → u.role = "patient") ∧
    u.role ≠ "doctor" ∧ u.role ≠ "admin" := by
  have hrole : u.role = coerceRegRole role := by
    unfold do_register at h
    simp only [apply_ite Prod.snd] at h
    split_ifs at h
    all_goals simp at h
    rw [← h]
  refine ⟨?_, ?_, ?_, ?_, ?_, ?_⟩
  · rintro rfl; rw [hrole]; decide
  · rintro rfl; rw [hrole]; decide
  · rintro r rfl hr1 hr2
    rw [hrole]
    simp [coerceRegRole, hr1, hr2]
  · rintro rfl; rw [hrole]; decide
  · rcases role with _ | r
    · rw [hrole]; decide
    · rw [hrole]
      by_cases hp : r = "patient"
      · subst hp; decide
      · by_cases hq : r = "researcher"
        · subst hq; decide
        · simp [coerceRegRole, hp, hq]
  · rcases role with _ | r
    · rw [hrole]; decide
    · rw [hrole]
      by_cases hp : r = "patient"
      · subst hp; decide
      · by_cases hq : r = "researcher"
        · subst hq; decide
        · simp [coerceRegRole, hp, hq]

/-- Concrete fixture: the user record created by a self-registration that
requested role `doctor`. -/
def c7RegUser : User :=
  { id := 5, email := "p1@x.org", name := "Pat One", affiliation := none
    role := "patient", password_hash := generate_password_hash "longpassword"
    created_at := 9, is_active := true }

/-- Witness for `c7_registration_role`: a concrete registration requesting
role `doctor` stores role `patient`, never `doctor` or `admin`. -/
theorem c7_registration_role_witness :
    c7RegUser.role ≠ "doctor" ∧ c7RegUser.role ≠ "admin" :=
  ⟨(c7_registration_role (some "Pat One") none (some "p1@x.org")
      (some "longpassword") (some "doctor") true 9 baseState c7RegUser
      (by decide)).2.2.2.2.1,
   (c7_registration_role (some "Pat One") none (some "p1@x.org")
      (some "longpassword") (some "doctor") true 9 baseState c7RegUser
      (by decide)).2.2.2.2.2⟩

/-- C8 counterexample to the claim as stated: an admin actor requests
`setRole` with the invalid role `doctor` on a selected target id (99) that
does not exist in the store — the operation fails with the user-not-found
error, NOT with the invalid-role error, because the source checks target
existence before role validity; no role is updated. -/
theorem c8_setrole_counterexample :
    adminU.role = "admin" ∧
    ("doctor" = "admin" ∨ "doctor" = "researcher" ∨ "doctor" = "patient")
      = False ∧
    findUser baseState.users 99 = none ∧
    admin_actions (some adminU) true (some 99) "doctor" baseState
      = (baseState, .userNotFound) := by
  refine ⟨rfl, by simp, rfl, rfl⟩

/-- C8 amended: `setRole` by a non-admin (or unauthenticated) actor always
fails not-authorized, regardless of target; for an admin actor, a missing
selection fails with the select-first prompt and a selected target id absent
from the store fails user-not-found (the existence check precedes role
validation); only when the selected target exists does an invalid requested
role — anything outside `{admin, researcher, patient}`, in particular
`doctor` — fail invalid-role, and a valid requested role update the target's
stored role. -/
theorem c8_setrole (u : User) (trig : Bool) (sel : Option Nat) (uid : Nat)
    (r : String) (s : AppState) (target : User) :
    (u.role ≠ "admin" → admin_actions (some u) trig sel r s
      = (s, .notAuthorized)) ∧
    (admin_actions none trig sel r s = (s, .notAuthorized)) ∧
    (u.role = "admin" → admin_actions (some u) trig none r s
      = (s, .selectFirst)) ∧
    (u.role = "admin" → findUser s.users uid = none →
      admin_actions (some u) trig (some uid) r s = (s, .userNotFound)) ∧
    (u.role = "admin" → findUser s.users uid = some target →
      (¬ (r = "admin" ∨ r = "researcher" ∨ r = "patient") →
        admin_actions (some u) true (some uid) r s = (s, .invalidRole)) ∧
      ((r = "admin" ∨ r = "researcher" ∨ r = "patient") →
        admin_actions (some u) true (some uid) r s
          = ({ s with users := setUserRole s.users uid r },
             .roleSet target.email r
               (adminRows { s with users := setUserRole s.users uid r })))) := by
  refine ⟨?_, rfl, ?_, ?_, ?_⟩
  · intro h
    simp [admin_actions, h]
  · intro h
    simp [admin_actions, h]
  · intro h hf
    simp [admin_actions, h, hf]
  · intro h hf
    constructor
    · intro hr
      push_neg at hr
      obtain ⟨h1, h2, h3⟩ := hr
      simp [admin_actions, h, hf, h1, h2, h3]
    · intro hr
      rcases hr with rfl | rfl | rfl <;>
        simp [admin_actions, h, hf]

/-- Witness for `c8_setrole`: concrete instances — a patient actor is refused
outright, and the concrete admin setting the researcher's role to `patient`
succeeds. -/
theorem c8_setrole_witness :
    admin_actions (some patU) true (some 2) "patient" baseState
      = (baseState, .notAuthorized) ∧
    admin_actions (some adminU) true (some 2) "patient" baseState
      = ({ baseState with users := setUserRole baseState.users 2 "patient" },
         .roleSet resU.email "patient"
           (adminRows { baseState with
             users := setUserRole baseState.users 2 "patient" })) :=
  ⟨(c8_setrole patU true (some 2) 2 "patient" baseState resU).1 (by decide),
   ((c8_setrole adminU true (some 2) 2 "patient" baseState resU).2.2.2.2
      (by decide) (by decide)).2 (Or.inr (Or.inr rfl))⟩

/-- C9: a publish (paper or dataset) that fails — unauthenticated actor,
missing title, or unauthorized visibility — leaves the content store exactly
as it was: every error outcome of `publish_paper` or `publish_dataset`
returns the unchanged state (validation happens strictly before any
persistence). -/
theorem c9_failed_publish_atomic (cu : Option User)
    (title link tags summary desc vis : Option String)
    (stP stD : Option Staged) (n m : Nat) (s : AppState) :
    (∀ msg, (publish_paper cu title link tags summary stP n s).2 = .err msg →
      (publish_paper cu title link tags summary stP n s).1 = s) ∧
    (∀ msg, (publish_dataset cu title desc link tags vis stD m s).2 = .err msg →
      (publish_dataset cu title desc link tags vis stD m s).1 = s) := by
  constructor
  · intro msg h
    cases cu with
    | none => rfl
    | some u =>
      by_cases hb : isBlank title = true
      · simp [publish_paper, hb]
      · simp [publish_paper, hb] at h
  · intro msg h
    cases cu with
    | none => rfl
    | some u =>
      by_cases hb : isBlank title = true
      · simp [publish_dataset, hb]
      · by_cases hv :
          (normVis vis == "researchers"
            && u.role != "admin" && u.role != "researcher") = true
        · simp [publish_dataset, hb, hv]
        · simp [publish_dataset, hb, hv] at h

/-- Witness for `c9_failed_publish_atomic`: a concrete blocked dataset
publish (patient actor, researcher-only visibility) and a concrete failed
paper publish (missing title) both leave the store untouched. -/
theorem c9_failed_publish_atomic_witness :
    (publish_paper none (some "T") none none none none 4 baseState).1
      = baseState ∧
    (publish_dataset (some patU) (some "T") none none none
        (some "researchers") none 4 baseState).1 = baseState :=
  ⟨(c9_failed_publish_atomic none (some "T") none none none none none none
      none 4 4 baseState).1 "Please log in." (by decide),
   (c9_failed_publish_atomic (some patU) (some "T") none none none none
      (some "researchers") none none 4 4 baseState).2
      "Only researchers/admin can post researcher-only items." (by decide)⟩

/-- C10: every content operation after login ignores the actor's `active`
flag: publishing a paper, dataset or news post, sending a chat message and
downloading a paper or dataset give a session actor with `is_active = false`
exactly the same result (same alert, same rows, same new store) as the same
actor with `is_active = true`; the flag is consulted only by `do_login`,
which refuses a matching but deactivated user and admits the same user when
active. -/
theorem c10_active_flag_ignored (u : User) (b b' : Bool)
    (title link tags summary desc vis body text : Option String)
    (stP stD : Option Staged) (n : Nat) (s : AppState) (ch : String)
    (pid did : Nat) :
    publish_paper (some { u with is_active := b }) title link tags summary
        stP n s
      = publish_paper (some { u with is_active := b' }) title link tags
        summary stP n s ∧
    publish_dataset (some { u with is_active := b }) title desc link tags vis
        stD n s
      = publish_dataset (some { u with is_active := b' }) title desc link tags
        vis stD n s ∧
    publish_news (some { u with is_active := b }) title link body n s
      = publish_news (some { u with is_active := b' }) title link body n s ∧
    send_chat (some { u with is_active := b }) ch text n s
      = send_chat (some { u with is_active := b' }) ch text n s ∧
    download_paper (some { u with is_active := b }) pid s
      = download_paper (some { u with is_active := b' }) pid s ∧
    download_dataset (some { u with is_active := b }) did s
      = download_dataset (some { u with is_active := b' }) did s ∧
    (∀ (w : User) (pw : String), w.email ≠ "" → pw ≠ "" →
      pyLower (pyStrip w.email) = w.email →
      check_password_hash w.password_hash pw = true →
      do_login (some w.email) (some pw)
          { users := [w], papers := [], datasets := [], news := [], chats := [] }
        = (if w.is_active then .loggedIn w else .deactivated)) := by
  refine ⟨rfl, rfl, rfl, rfl, rfl, rfl, ?_⟩
  intro w pw hw hpw hnorm hck
  have hbe : isBlank (some w.email) = false := by
    simpa [isBlank] using hw
  have hbp : isBlank (some pw) = false := by
    simpa [isBlank] using hpw
  simp [do_login, hbe, hbp, hnorm, hck]
  cases hw' : w.is_active <;> simp

/-- Witness for `c10_active_flag_ignored`: the concrete patient account with
the flag flipped gets identical results everywhere, and the concrete login
of that same account is refused exactly when deactivated. -/
theorem c10_active_flag_ignored_witness :
    publish_paper (some { patU with is_active := false }) (some "T") none none
        none none 6 baseState
      = publish_paper (some { patU with is_active := true }) (some "T") none
        none none none 6 baseState ∧
    do_login (some patU.email) (some "password-p")
        { users := [patU], papers := [], datasets := [], news := []
          chats := [] }
      = (if patU.is_active then .loggedIn patU else .deactivated) :=
  ⟨(c10_active_flag_ignored patU false true (some "T") none none none none
      none none none none none 6 baseState "general" 1 1).1,
   (c10_active_flag_ignored patU false true (some "T") none none none none
      none none none none none 6 baseState "general" 1 1).2.2.2.2.2.2 patU
      "password-p" (by decide) (by decide) (by decide) (by decide)⟩
